import Mathlib

/-!
Shallow embedding of the `exa` comparison web service (src/app.py,
src/utils/exa_client.py, src/utils/traditional_search.py).

Text is modelled as `List Char`; each Python `re.sub` call of the source is
embedded as a dedicated left-to-right scanner that replaces every
(leftmost, non-overlapping) match of its pattern exactly as the `re` module
does for that concrete pattern, with greedy repetition and the backtracking
behaviour the pattern admits.  Scanners recurse on an explicit fuel equal to
the input length: every match consumes at least one character, so the fuel
never runs out on the wrapped calls.

Character classes follow Python's ASCII semantics: the source is only ever
fed ASCII-relevant text and the embedded classes agree with Python on all
ASCII characters.
-/

/-- Python's whitespace class for ASCII characters: the characters matched by
the regex class `\s` and stripped by `str.strip()`. -/
def pyWs (c : Char) : Bool :=
  c = ' ' || c = '\t' || c = '\n' || c = '\r' || c = '\x0b' || c = '\x0c'

/-- Python's word class `\w` restricted to ASCII: letters, digits and
underscore. -/
def pyWord (c : Char) : Bool :=
  c.isAlpha || c.isDigit || c = '_'

/-- Strip leading characters satisfying `pyWs` (left half of `str.strip()`). -/
def pyLStrip (l : List Char) : List Char :=
  l.dropWhile pyWs

/-- Strip trailing characters satisfying `pyWs` (right half of `str.strip()`). -/
def pyRStrip (l : List Char) : List Char :=
  (l.reverse.dropWhile pyWs).reverse

/-- Python `str.strip()` on a character list. -/
def pyStrip (l : List Char) : List Char :=
  pyRStrip (pyLStrip l)

/-- Python `str.strip()` on a `String`. -/
def pyStripStr (s : String) : String :=
  String.mk (pyStrip s.data)

/-- Python `str.split(sep)` for a one-character separator: keeps empty parts,
and the empty string splits to one empty part. -/
def splitOnChar (sep : Char) : List Char → List (List Char)
  | [] => [[]]
  | c :: cs =>
    if c = sep then
      [] :: splitOnChar sep cs
    else
      match splitOnChar sep cs with
      | [] => [[c]]
      | p :: ps => (c :: p) :: ps

/-- Python `sep.join(parts)` on character lists. -/
def pyJoin (sep : List Char) : List (List Char) → List Char
  | [] => []
  | [p] => p
  | p :: ps => p ++ sep ++ pyJoin sep ps

/-- Match the regex fragment `[^stop]*stop` at the head of the input:
returns the characters strictly before the first occurrence of `stop`
together with the remainder after consuming `stop`; `none` when `stop`
does not occur.  (Greedy matching of `[^x]*` followed by the literal `x`
is deterministic: the run cannot cross `x` and shortening it would put a
non-`x` character under the literal.) -/
def upToChar (stop : Char) : List Char → Option (List Char × List Char)
  | [] => none
  | c :: cs =>
    if c = stop then
      some ([], cs)
    else
      match upToChar stop cs with
      | none => none
      | some (content, rest) => some (c :: content, rest)

/-- Generic `re.sub` scanner for patterns that need no scan state.
The matcher receives the text at the current position and, on a match,
returns the replacement text and the remainder after the match (every
matcher below consumes at least one character).  On failure the scanner
emits one character and advances, exactly like the `re` module's scan. -/
def reSub (m : List Char → Option (List Char × List Char)) : Nat → List Char → List Char
  | 0, s => s
  | _ + 1, [] => []
  | fuel + 1, c :: cs =>
    match m (c :: cs) with
    | some (rep, rest) => rep ++ reSub m fuel rest
    | none => c :: reSub m fuel cs

/-- Run a stateless substitution over a whole character list. -/
def runSub (m : List Char → Option (List Char × List Char)) (s : List Char) : List Char :=
  reSub m s.length s

/-- Matcher for `!\[([^\]]*)\]\([^)]+\)` (markdown images), replacement the
alt text `\1`. -/
def mImage : List Char → Option (List Char × List Char)
  | '!' :: '[' :: rest =>
    match upToChar ']' rest with
    | none => none
    | some (alt, r1) =>
      match r1 with
      | '(' :: r2 =>
        match upToChar ')' r2 with
        | none => none
        | some (url, r3) => if url = [] then none else some (alt, r3)
      | _ => none
  | _ => none

/-- Matcher for `\[([^\]]+)\]\([^)]+\)` (markdown links), replacement the
link text `\1`. -/
def mLink : List Char → Option (List Char × List Char)
  | '[' :: rest =>
    match upToChar ']' rest with
    | none => none
    | some (txt, r1) =>
      if txt = [] then none
      else
        match r1 with
        | '(' :: r2 =>
          match upToChar ')' r2 with
          | none => none
          | some (url, r3) => if url = [] then none else some (txt, r3)
        | _ => none
  | _ => none

/-- Matcher for a twin-delimiter emphasis pattern `dd([^d]+)dd` (used for
`\*\*([^*]+)\*\*` and `__([^_]+)__`), replacement the inner text. -/
def mDelim2 (d : Char) : List Char → Option (List Char × List Char) :=
  fun s =>
    match s with
    | c1 :: c2 :: rest =>
      if c1 = d && c2 = d then
        match upToChar d rest with
        | none => none
        | some (content, r1) =>
          if content = [] then none
          else
            match r1 with
            | c3 :: r2 => if c3 = d then some (content, r2) else none
            | [] => none
      else none
    | _ => none

/-- Matcher for a single-delimiter pattern `d([^d]+)d` (used for
`\*([^*]+)\*` and the inline-code pattern with backticks), replacement the
inner text. -/
def mDelim1 (d : Char) : List Char → Option (List Char × List Char) :=
  fun s =>
    match s with
    | c :: rest =>
      if c = d then
        match upToChar d rest with
        | none => none
        | some (content, r1) => if content = [] then none else some (content, r1)
      else none
    | _ => none

/-- The backtick character, used by the inline-code pattern. -/
def tickChar : Char := Char.ofNat 96

/-- One scan step of `re.sub(r'^#{1,6}\s*', '', text, flags=re.MULTILINE)`:
`atLS` records whether the current position is a line start in the original
text (string start or just after a newline).  At a line start beginning with
`#`, the match consumes up to six `#` characters and then a maximal run of
whitespace (which, as `\s` does, may span newlines). -/
def stripHeadersMLAux : Nat → Bool → List Char → List Char
  | 0, _, s => s
  | _ + 1, _, [] => []
  | fuel + 1, atLS, c :: cs =>
    if atLS && c = '#' then
      let hashes := (c :: cs).takeWhile (fun x => x = '#')
      let k := min hashes.length 6
      let afterHash := (c :: cs).drop k
      let ws := afterHash.takeWhile pyWs
      let rest := afterHash.drop ws.length
      let nextLS := ws.getLast? = some '\n'
      stripHeadersMLAux fuel nextLS rest
    else
      c :: stripHeadersMLAux fuel (c = '\n') cs

/-- `re.sub(r'^#{1,6}\s*', '', text, flags=re.MULTILINE)`. -/
def stripHeadersML (s : List Char) : List Char :=
  stripHeadersMLAux s.length true s

/-- One scan step of `re.sub(r'(?<!\w)_([^_]+)_(?!\w)', r'\1', text)`:
`prev` is the character just before the current position in the original
text (`none` at the string start), used for the `(?<!\w)` lookbehind; the
`(?!\w)` lookahead inspects the character after the closing underscore. -/
def subItalicUnderAux : Nat → Option Char → List Char → List Char
  | 0, _, s => s
  | _ + 1, _, [] => []
  | fuel + 1, prev, c :: cs =>
    if c = '_' && (match prev with | none => true | some p => !pyWord p) then
      match upToChar '_' cs with
      | some (content, r1) =>
        if content ≠ [] && (match r1 with | [] => true | d :: _ => !pyWord d) then
          content ++ subItalicUnderAux fuel (some '_') r1
        else
          c :: subItalicUnderAux fuel (some c) cs
      | none => c :: subItalicUnderAux fuel (some c) cs
    else
      c :: subItalicUnderAux fuel (some c) cs

/-- `re.sub(r'(?<!\w)_([^_]+)_(?!\w)', r'\1', text)`. -/
def subItalicUnder (s : List Char) : List Char :=
  subItalicUnderAux s.length none s

/-- Character class `[\s\-:|]` of the table-separator pattern. -/
def sepClass (c : Char) : Bool :=
  pyWs c || c = '-' || c = ':' || c = '|'

/-- Python `re.match(r'^\s*\|[\s\-:|]+\|\s*$', line)` as a Boolean: optional
whitespace, a pipe, a nonempty run over `[\s\-:|]`, a pipe, optional
whitespace, end of line.  Equivalently: after the leading whitespace the
line starts with a pipe, its last non-whitespace character is a pipe, and
the (nonempty) segment between those two pipes stays inside the class. -/
def isSepLine (l : List Char) : Bool :=
  match pyLStrip l with
  | '|' :: r =>
    let rr := pyRStrip r
    match rr.getLast? with
    | some '|' => rr.dropLast ≠ [] && rr.dropLast.all sepClass
    | _ => false
  | _ => false

/-- One line of the table-formatting loop of `clean_markdown_text`
(src/utils/exa_client.py lines 44-55): separator lines are skipped, lines
whose stripped form starts with a pipe are split on pipes with the blank
cells discarded and the rest trimmed and joined by " - " (skipped entirely
when every cell is blank), and any other line is kept unchanged. -/
def processLine (l : List Char) : Option (List Char) :=
  if isSepLine l then none
  else if l.contains '|' && (match pyStrip l with | '|' :: _ => true | _ => false) then
    let cells := ((splitOnChar '|' l).map pyStrip).filter (fun c => c ≠ [])
    if cells = [] then none else some (pyJoin [' ', '-', ' '] cells)
  else some l

/-- The table stage of `clean_markdown_text`: split on newlines, process each
line, join the surviving lines with newlines. -/
def tableStageL (s : List Char) : List Char :=
  pyJoin ['\n'] ((splitOnChar '\n' s).filterMap processLine)

/-- The table stage on `String`s, for stating claims about it. -/
def tableStage (s : String) : String :=
  String.mk (tableStageL s.data)

/-- One scan step replacing every run of `k` or more newlines by exactly two
newlines (`re.sub(r'\n{3,}', '\n\n', ...)` for `k = 3`, and the
`re.sub(r'\n{2,}', '\n\n', ...)` of the answer cleaner for `k = 2`). -/
def collapseNlAux (k : Nat) : Nat → List Char → List Char
  | 0, s => s
  | _ + 1, [] => []
  | fuel + 1, c :: cs =>
    if c = '\n' then
      let run := (c :: cs).takeWhile (fun x => x = '\n')
      let rest := (c :: cs).drop run.length
      if k ≤ run.length then
        '\n' :: '\n' :: collapseNlAux k fuel rest
      else
        run ++ collapseNlAux k fuel rest
    else
      c :: collapseNlAux k fuel cs

/-- Replace every run of at least `k` newlines with exactly two. -/
def collapseNl (k : Nat) (s : List Char) : List Char :=
  collapseNlAux k s.length s

/-- `re.sub(r'[ \t]+', ' ', text)`: every maximal run of spaces and tabs
becomes a single space. -/
def collapseSpaceTabAux : Nat → List Char → List Char
  | 0, s => s
  | _ + 1, [] => []
  | fuel + 1, c :: cs =>
    if c = ' ' || c = '\t' then
      let run := (c :: cs).takeWhile (fun x => x = ' ' || x = '\t')
      let rest := (c :: cs).drop run.length
      ' ' :: collapseSpaceTabAux fuel rest
    else
      c :: collapseSpaceTabAux fuel cs

/-- `re.sub(r'[ \t]+', ' ', text)`. -/
def collapseSpaceTab (s : List Char) : List Char :=
  collapseSpaceTabAux s.length s

/-- The Text Normalizer `clean_markdown_text` (src/utils/exa_client.py lines
6-65): the empty-input guard followed by the image, link, multiline-header,
bold, italic, inline-code, table, newline-collapsing and
whitespace-collapsing substitutions, in source order, ending with a strip. -/
def clean_markdown_text (text : String) : String :=
  if text = "" then ""
  else
    let s := text.data
    let s := runSub mImage s
    let s := runSub mLink s
    let s := stripHeadersML s
    let s := runSub (mDelim2 '*') s
    let s := runSub (mDelim2 '_') s
    let s := runSub (mDelim1 '*') s
    let s := subItalicUnder s
    let s := runSub (mDelim1 tickChar) s
    let s := tableStageL s
    let s := collapseNl 3 s
    let s := collapseSpaceTab s
    String.mk (pyStrip s)

/-- The Python call `clean_markdown_text(x)` at a possibly-`None` argument:
`if not text` treats `None` exactly like the empty string. -/
def cleanMarkdownTextPy : Option String → String
  | none => ""
  | some s => clean_markdown_text s


/-- Non-paren character, the class `[^()]` of the grouped-citation pattern. -/
def nonParen (c : Char) : Bool :=
  c ≠ '(' && c ≠ ')'

/-- Attempt the tail `[^\]]*\]\([^)]+\)[^()]*\)` of the grouped-citation
pattern, starting just after a candidate `[`: bracket text up to the first
`]` (which may span parentheses), a literal `(`, URL text up to the first
`)`, then a run of non-paren characters which must be immediately followed
by the closing `)`.  Returns the remainder after that closing paren. -/
def tryCiteTail (s : List Char) : Option (List Char) :=
  match upToChar ']' s with
  | none => none
  | some (_, r1) =>
    match r1 with
    | '(' :: r2 =>
      match upToChar ')' r2 with
      | none => none
      | some (url, r3) =>
        if url = [] then none
        else
          let run2 := r3.takeWhile nonParen
          match r3.drop run2.length with
          | ')' :: r5 => some r5
          | _ => none
    | _ => none

/-- Matcher for `\s*\([^()]*\[[^\]]*\]\([^)]+\)[^()]*\)` (parenthetical
citation groups), replacement empty.  After the opening paren, `[^()]*\[`
backtracks over the candidate `[` positions inside the maximal non-paren
run from the rightmost one leftwards, as the greedy engine does. -/
def mCiteGroup : List Char → Option (List Char × List Char)
  | s =>
    let ws := s.takeWhile pyWs
    match s.drop ws.length with
    | '(' :: r1 =>
      let run := r1.takeWhile nonParen
      let tail := r1.drop run.length
      let candidates := ((List.range run.length).filter
        (fun i => run.get? i = some '[')).reverse
      match candidates.findSome? (fun i => tryCiteTail (run.drop (i + 1) ++ tail)) with
      | some rest => some ([], rest)
      | none => none
    | _ => none

/-- Matcher for `\s*\[[^\]]*\]\([^)]+\)` (leftover standalone links together
with any whitespace before them), replacement empty.  Unlike the
normalizer's link pattern, the bracket text may be empty here. -/
def mLinkWs : List Char → Option (List Char × List Char)
  | s =>
    let ws := s.takeWhile pyWs
    match s.drop ws.length with
    | '[' :: rest =>
      match upToChar ']' rest with
      | none => none
      | some (_, r1) =>
        match r1 with
        | '(' :: r2 =>
          match upToChar ')' r2 with
          | none => none
          | some (url, r3) => if url = [] then none else some ([], r3)
        | _ => none
    | _ => none

/-- Matcher for `\s*,\s*\)`, replacement a single `)`. -/
def mCommaParen : List Char → Option (List Char × List Char)
  | s =>
    let ws := s.takeWhile pyWs
    match s.drop ws.length with
    | ',' :: r1 =>
      let ws2 := r1.takeWhile pyWs
      match r1.drop ws2.length with
      | ')' :: r2 => some ([')'], r2)
      | _ => none
    | _ => none

/-- Matcher for `\(\s*,?\s*\)` (empty or near-empty parenthetical remnants),
replacement empty. -/
def mEmptyParen : List Char → Option (List Char × List Char)
  | '(' :: r1 =>
    let ws := r1.takeWhile pyWs
    let r2 := r1.drop ws.length
    let r3 := match r2 with
      | ',' :: r => r.drop (r.takeWhile pyWs).length
      | _ => r2
    (match r3 with
      | ')' :: r4 => some ([], r4)
      | _ => none)
  | _ => none

/-- Matcher for `\s+\)`, replacement a single `)`. -/
def mWsParen : List Char → Option (List Char × List Char)
  | s =>
    let ws := s.takeWhile pyWs
    if ws = [] then none
    else
      match s.drop ws.length with
      | ')' :: r => some ([')'], r)
      | _ => none

/-- Sentence punctuation class `[.!?]`. -/
def sentencePunct (c : Char) : Bool :=
  c = '.' || c = '!' || c = '?'

/-- Matcher for `([.!?])\s*\)`, replacement the punctuation mark. -/
def mPunctParen : List Char → Option (List Char × List Char)
  | c :: r1 =>
    if sentencePunct c then
      let ws := r1.takeWhile pyWs
      match r1.drop ws.length with
      | ')' :: r2 => some ([c], r2)
      | _ => none
    else none
  | _ => none

/-- Matcher for `\)\s*([.!?])`, replacement the punctuation mark. -/
def mParenPunct : List Char → Option (List Char × List Char)
  | ')' :: r1 =>
    let ws := r1.takeWhile pyWs
    (match r1.drop ws.length with
      | c :: r2 => if sentencePunct c then some ([c], r2) else none
      | _ => none)
  | _ => none

/-- Punctuation class `[.,!?]` of the spacing-fix pattern. -/
def spacingPunct (c : Char) : Bool :=
  c = '.' || c = ',' || c = '!' || c = '?'

/-- Matcher for `\s+([.,!?])`, replacement the punctuation mark. -/
def mWsPunct : List Char → Option (List Char × List Char)
  | s =>
    let ws := s.takeWhile pyWs
    if ws = [] then none
    else
      match s.drop ws.length with
      | c :: r => if spacingPunct c then some ([c], r) else none
      | _ => none

/-- Matcher for `#{1,6}\s*` with no anchor (the answer cleaner's header
rule strips hash runs anywhere in the text): up to six hashes followed by a
maximal whitespace run. -/
def mHashAnywhere : List Char → Option (List Char × List Char)
  | s =>
    match s with
    | '#' :: _ =>
      let hashes := s.takeWhile (fun x => x = '#')
      let k := min hashes.length 6
      let afterHash := s.drop k
      let ws := afterHash.takeWhile pyWs
      some ([], afterHash.drop ws.length)
    | _ => none

/-- One scan step of `re.sub(r'^[\s]*\*\s+', '', text, flags=re.MULTILINE)`
(the answer cleaner's bullet rule): at a line start, a whitespace run (which
may span newlines), a literal `*`, and at least one whitespace character. -/
def stripBulletsAux : Nat → Bool → List Char → List Char
  | 0, _, s => s
  | _ + 1, _, [] => []
  | fuel + 1, atLS, c :: cs =>
    let fail := fun _ : Unit => c :: stripBulletsAux fuel (c = '\n') cs
    if atLS then
      let ws1 := (c :: cs).takeWhile pyWs
      match (c :: cs).drop ws1.length with
      | '*' :: r2 =>
        let ws2 := r2.takeWhile pyWs
        if ws2 = [] then fail ()
        else
          stripBulletsAux fuel (ws2.getLast? = some '\n') (r2.drop ws2.length)
      | _ => fail ()
    else fail ()

/-- `re.sub(r'^[\s]*\*\s+', '', text, flags=re.MULTILINE)`. -/
def stripBullets (s : List Char) : List Char :=
  stripBulletsAux s.length true s

/-- One scan step of `re.sub(r'\s{2,}', ' ', text)`: every run of two or
more whitespace characters (newlines included) becomes one space. -/
def collapseWs2Aux : Nat → List Char → List Char
  | 0, s => s
  | _ + 1, [] => []
  | fuel + 1, c :: cs =>
    if pyWs c then
      let run := (c :: cs).takeWhile pyWs
      if 2 ≤ run.length then
        ' ' :: collapseWs2Aux fuel ((c :: cs).drop run.length)
      else
        c :: collapseWs2Aux fuel cs
    else
      c :: collapseWs2Aux fuel cs

/-- `re.sub(r'\s{2,}', ' ', text)`. -/
def collapseWs2 (s : List Char) : List Char :=
  collapseWs2Aux s.length s

/-- The markdown-stripping stage of the answer cleaner
(src/utils/exa_client.py lines 178-182): star bold, star italic, multiline
star bullets, unanchored headers, inline code — in source order. -/
def answerMarkdownStageL (s : List Char) : List Char :=
  let s := runSub (mDelim2 '*') s
  let s := runSub (mDelim1 '*') s
  let s := stripBullets s
  let s := runSub mHashAnywhere s
  runSub (mDelim1 tickChar) s

/-- The markdown-stripping stage of the answer cleaner on `String`s. -/
def answerMarkdownStage (s : String) : String :=
  String.mk (answerMarkdownStageL s.data)

/-- The Answer Citation Cleaner: the cleaning pipeline applied to the raw
answer inside `ExaSearchWrapper.get_answer` (src/utils/exa_client.py lines
166-187), with every substitution in source order, ending with a strip. -/
def cleanAnswer (raw : String) : String :=
  let s := raw.data
  let s := runSub mCiteGroup s
  let s := runSub mLinkWs s
  let s := runSub mCommaParen s
  let s := runSub mEmptyParen s
  let s := runSub mWsParen s
  let s := runSub mPunctParen s
  let s := runSub mParenPunct s
  let s := answerMarkdownStageL s
  let s := runSub mWsPunct s
  let s := collapseWs2 s
  let s := collapseNl 2 s
  String.mk (pyStrip s)


/-- Python `str.title()` restricted to ASCII: a letter is uppercased when the
preceding character is not a letter and lowercased otherwise. -/
def pyTitleAux : Bool → List Char → List Char
  | _, [] => []
  | prevAlpha, c :: cs =>
    if c.isAlpha then
      (if prevAlpha then c.toLower else c.toUpper) :: pyTitleAux true cs
    else
      c :: pyTitleAux false cs

/-- Python `str.title()`. -/
def pyTitle (s : String) : String :=
  String.mk (pyTitleAux false s.data)

/-- Python `query.replace(" ", r)` for a one-character replacement. -/
def pyReplaceSpace (r : Char) (s : String) : String :=
  String.mk (s.data.map (fun c => if c = ' ' then r else c))

/-- Python list slice `l[:n]`: the first `n` elements when `n` is
non-negative, and all but the last `-n` elements (clamped at the empty
list) when `n` is negative. -/
def pySliceTo (n : Int) (l : List α) : List α :=
  if 0 ≤ n then l.take n.toNat else l.take (l.length - (-n).toNat)

/-- Python `int(s)` on a string: strip whitespace, an optional sign, then a
nonempty digit sequence in which single underscores may appear between
digits; `none` models the `ValueError` raised on any other input. -/
def parseDigitsAux : Nat → List Char → Option Nat
  | acc, [] => some acc
  | acc, c :: cs =>
    if c.isDigit then parseDigitsAux (acc * 10 + (c.toNat - 48)) cs
    else if c = '_' then
      match cs with
      | d :: _ => if d.isDigit then parseDigitsAux acc cs else none
      | [] => none
    else none

/-- Parse a nonempty unsigned digit sequence (underscores between digits). -/
def parseDigits : List Char → Option Nat
  | [] => none
  | c :: cs => if c.isDigit then parseDigitsAux 0 (c :: cs) else none

/-- Python `int(s)` (ASCII model); `none` models a raised `ValueError`. -/
def pyInt (s : String) : Option Int :=
  match pyStrip s.data with
  | '+' :: r => (parseDigits r).map (fun n => (n : Int))
  | '-' :: r => (parseDigits r).map (fun n => -(n : Int))
  | r => (parseDigits r).map (fun n => (n : Int))

/-- Python `sep.join(parts)` on `String`s. -/
def pyJoinStr (sep : String) : List String → String
  | [] => ""
  | [p] => p
  | p :: ps => p ++ sep ++ pyJoinStr sep ps

/-- A raw result object of the Exa `search_and_contents` response.  The
source reads every field with a defaulted `getattr`; the embedding gives
each result all the fields, the default standing for an absent one. -/
structure ExaRawResult where
  title : String
  url : String
  text : String
  score : Int
  highlights : List String
  published_date : String
  author : String
deriving Repr, DecidableEq

/-- One formatted result built by `ExaSearchWrapper.search`. -/
structure FormattedResult where
  title : String
  url : String
  content : String
  score : Int
  highlights : List String
  published_date : String
  author : String
deriving Repr, DecidableEq

/-- The dictionary returned by `ExaSearchWrapper.search`.  `error = none`
models the absence of the `'error'` key (the success dictionary never has
one, and the failure dictionary always maps it to a string); likewise
`answer`/`raw_response` are `none` exactly when the failure dictionary
omits those keys. -/
structure SearchDict where
  error : Option String
  query : String
  answer : Option String
  results : List FormattedResult
  raw_response : Option (List ExaRawResult)
deriving Repr, DecidableEq

/-- The outcome of the external `client.search_and_contents` call:
`Except.error e` models a raised exception with message `str(e)` and
`Except.ok rs` a response whose `results` attribute holds `rs`. -/
abbrev ExaApiOutcome := Except String (List ExaRawResult)

/-- `ExaSearchWrapper.search` (src/utils/exa_client.py lines 74-137): format
every raw result (cleaning its text through the normalizer), synthesize an
answer from the first five highlights when any exist, and on an exception
return the error dictionary with an empty result list. -/
def ExaSearchWrapper.search (query : String) (max_results : Int) (api : ExaApiOutcome) : SearchDict :=
  let _ := max_results
  match api with
  | .error e => { error := some e, query := query, answer := none, results := [], raw_response := none }
  | .ok rs =>
    let formatted : List FormattedResult := rs.map (fun r =>
      { title := r.title, url := r.url, content := clean_markdown_text r.text,
        score := r.score, highlights := r.highlights,
        published_date := r.published_date, author := r.author })
    let allHighlights := (formatted.map (fun r => r.highlights)).flatten
    let answer := if allHighlights ≠ [] then pyJoinStr " " (allHighlights.take 5) else ""
    { error := none, query := query, answer := some answer,
      results := formatted, raw_response := some rs }

/-- One citation object of the Exa answer response. -/
structure CitationEntry where
  url : String
deriving Repr, DecidableEq

/-- The answer attribute and citations of the external `client.answer` call. -/
structure AnswerApiResponse where
  answer : String
  citations : List CitationEntry
deriving Repr, DecidableEq

/-- The outcome of the external `client.answer` call. -/
abbrev AnswerApiOutcome := Except String AnswerApiResponse

/-- The dictionary returned by `ExaSearchWrapper.get_answer`; here the
`'error'` key is always present, mapped to `None` (`none`) on success. -/
structure AnswerDict where
  answer : String
  citation_urls : List String
  error : Option String
deriving Repr, DecidableEq

/-- `ExaSearchWrapper.get_answer` (src/utils/exa_client.py lines 150-206):
clean the raw answer through the citation-cleaning pipeline and collect the
citation URLs; on an exception return the empty-answer error dictionary. -/
def ExaSearchWrapper.get_answer (query : String) (api : AnswerApiOutcome) : AnswerDict :=
  let _ := query
  match api with
  | .error e => { answer := "", citation_urls := [], error := some e }
  | .ok resp =>
    { answer := cleanAnswer resp.answer,
      citation_urls := resp.citations.map (fun c => c.url),
      error := none }

/-- One mock traditional-search result: the dictionaries built by
`TraditionalSearchMock._generate_mock_results` carry exactly these three
keys. -/
structure SnippetResult where
  title : String
  url : String
  snippet : String
deriving Repr, DecidableEq

/-- The dictionary returned by `TraditionalSearchMock.search`. -/
structure TraditionalDict where
  query : String
  results : List SnippetResult
  total_results : Nat
deriving Repr, DecidableEq

/-- The ten mock templates of
`TraditionalSearchMock._generate_mock_results` (src/utils/traditional_search.py
lines 53-104), transcribed f-string by f-string. -/
def mockTemplates (query : String) : List SnippetResult :=
  [ { title := pyTitle query ++ " - Comprehensive Guide",
      url := "https://example.com/guide/" ++ pyReplaceSpace '-' query,
      snippet := "Learn about " ++ query ++ " in this comprehensive guide. Discover the best practices, tips, and techniques for understanding " ++ query ++ "..." },
    { title := "Understanding " ++ pyTitle query ++ ": A Complete Overview",
      url := "https://docs.example.org/" ++ pyReplaceSpace '-' query,
      snippet := "Everything you need to know about " ++ query ++ ". This article covers the fundamentals, advanced concepts, and practical applications..." },
    { title := pyTitle query ++ " Explained - Tutorial",
      url := "https://tutorial.site/" ++ pyReplaceSpace '/' query,
      snippet := "A step-by-step tutorial on " ++ query ++ ". Perfect for beginners and advanced users alike. Includes examples and best practices..." },
    { title := "Latest News and Updates on " ++ pyTitle query,
      url := "https://news.example.com/topics/" ++ pyReplaceSpace '-' query,
      snippet := "Stay up to date with the latest developments in " ++ query ++ ". Recent articles, announcements, and industry insights..." },
    { title := pyTitle query ++ " - Wikipedia",
      url := "https://wikipedia.org/wiki/" ++ pyReplaceSpace '_' query,
      snippet := pyTitle query ++ " refers to... From Wikipedia, the free encyclopedia. This article needs additional citations for verification..." },
    { title := pyTitle query ++ " Best Practices and Tips",
      url := "https://medium.com/@author/" ++ pyReplaceSpace '-' query ++ "-best-practices",
      snippet := "In this article, we explore the best practices for " ++ query ++ ". Learn from industry experts and improve your understanding..." },
    { title := "The Ultimate " ++ pyTitle query ++ " Resource",
      url := "https://resources.dev/" ++ pyReplaceSpace '-' query,
      snippet := "Your one-stop resource for everything related to " ++ query ++ ". Curated links, tutorials, and documentation..." },
    { title := pyTitle query ++ " FAQ - Frequently Asked Questions",
      url := "https://faq.example.com/" ++ pyReplaceSpace '-' query,
      snippet := "Find answers to the most common questions about " ++ query ++ ". Our FAQ covers basics to advanced topics..." },
    { title := "Getting Started with " ++ pyTitle query,
      url := "https://quickstart.io/" ++ pyReplaceSpace '-' query,
      snippet := "New to " ++ query ++ "? This getting started guide will help you understand the fundamentals quickly and efficiently..." },
    { title := pyTitle query ++ " Documentation - Official",
      url := "https://docs.official.com/" ++ pyReplaceSpace '-' query,
      snippet := "Official documentation for " ++ query ++ ". Complete API reference, guides, and examples for developers..." } ]

/-- `TraditionalSearchMock._generate_mock_results`: the template list sliced
by `[:max_results]`. -/
def TraditionalSearchMock.generate_mock_results (query : String) (max_results : Int) : List SnippetResult :=
  pySliceTo max_results (mockTemplates query)

/-- `TraditionalSearchMock.search` (src/utils/traditional_search.py lines
26-40). -/
def TraditionalSearchMock.search (query : String) (max_results : Int) : TraditionalDict :=
  let mock := TraditionalSearchMock.generate_mock_results query max_results
  { query := query, results := mock, total_results := mock.length }

/-- `TraditionalSearchNote.get_workflow_steps`. -/
def TraditionalSearchNote.get_workflow_steps : List String :=
  [ "Call search API (Google, Bing, SerpAPI)",
    "Get URLs and short snippets",
    "For each URL, you need to scrape the page (requests, selenium), parse HTML (BeautifulSoup, lxml), extract main content (custom logic), clean and format text and handle errors (404s, timeouts, paywalls)",
    "Filter and rank extracted content",
    "Optimize for LLM context window",
    "Finally get RAG-ready content" ]

/-- `TraditionalSearchNote.get_problems`. -/
def TraditionalSearchNote.get_problems : List String :=
  [ "Multiple API calls required",
    "Complex scraping logic needed",
    "Error handling for each website",
    "Content extraction varies by site",
    "High latency (serial scraping)",
    "Maintenance burden (site changes)",
    "Rate limiting concerns",
    "Extra infrastructure needed" ]

/-- Modelled from the spec: src/utils/metrics.py is not in the repository
snapshot; section 4.3 of the specification describes the metric set of
`RAGMetrics` (result count, aggregate and average content length, count of
results with supplementary data, distinct source domain count). -/
structure MetricsReport where
  result_count : Nat
  total_content_length : Nat
  avg_content_length : Nat
  supplementary_count : Nat
  distinct_domains : Nat
deriving Repr, DecidableEq

/-- Modelled from the spec: the host part of a URL, for the distinct source
domain count of section 4.3. -/
def urlDomain (url : String) : String :=
  let rest :=
    if url.startsWith "https://" then url.drop 8
    else if url.startsWith "http://" then url.drop 7
    else url
  String.mk (rest.data.takeWhile (fun c => c ≠ '/'))

/-- Modelled from the spec: `RAGMetrics.calculate_exa_metrics` per section
4.3, computed over the rich result set. -/
def RAGMetrics.calculate_exa_metrics (r : SearchDict) : MetricsReport :=
  let n := r.results.length
  let total := (r.results.map (fun x => x.content.length)).sum
  { result_count := n
    total_content_length := total
    avg_content_length := total / max n 1
    supplementary_count := (r.results.filter (fun x => x.highlights ≠ [])).length
    distinct_domains := ((r.results.map (fun x => urlDomain x.url)).dedup).length }

/-- Modelled from the spec: `RAGMetrics.calculate_traditional_metrics` per
section 4.3, computed over the snippet result set (no supplementary data by
construction). -/
def RAGMetrics.calculate_traditional_metrics (r : TraditionalDict) : MetricsReport :=
  let n := r.results.length
  let total := (r.results.map (fun x => x.snippet.length)).sum
  { result_count := n
    total_content_length := total
    avg_content_length := total / max n 1
    supplementary_count := 0
    distinct_domains := ((r.results.map (fun x => urlDomain x.url)).dedup).length }

/-- Modelled from the spec: `RAGMetrics.compare_metrics` pairs the two
reports field by field (section 4.3: per-metric differences with the larger
side labelled). -/
structure ComparisonReport where
  count_difference : Int
  content_length_difference : Int
  exa_has_more_content : Bool
deriving Repr, DecidableEq

/-- Modelled from the spec: the head-to-head comparison step. -/
def RAGMetrics.compare_metrics (exa traditional : MetricsReport) : ComparisonReport :=
  { count_difference := (exa.result_count : Int) - (traditional.result_count : Int)
    content_length_difference := (exa.total_content_length : Int) - (traditional.total_content_length : Int)
    exa_has_more_content := traditional.total_content_length < exa.total_content_length }

/-- The JSON error body `{'error': msg}`. -/
structure ErrorBody where
  error : String
deriving Repr, DecidableEq

/-- The success payload assembled by the `/compare` handler (src/app.py
lines 58-72). -/
structure ComparePayload where
  query : String
  exa_results : SearchDict
  exa_metrics : MetricsReport
  exa_answer : AnswerDict
  traditional_results : TraditionalDict
  traditional_metrics : MetricsReport
  workflow_steps : List String
  problems : List String
  comparison : ComparisonReport
deriving Repr, DecidableEq

/-- Outcome of the `/compare` handler: `valueError` is the uncaught
`ValueError` escaping `int()`, `badRequest` a response with status 400,
`serverError` one with status 500, and `ok` the JSON success payload. -/
inductive CompareOutcome where
  | valueError
  | badRequest (body : ErrorBody)
  | serverError (body : ErrorBody)
  | ok (payload : ComparePayload)
deriving Repr, DecidableEq

/-- The `/compare` handler from the provider-error check onward (src/app.py
lines 37-72): a search dictionary with the `'error'` key present and a
falsy result list aborts with the 500 body; otherwise the answer call, the
mock search, the metrics and the comparison are run and the full payload is
returned. -/
def compareWithResults (query : String) (max_results : Int) (exa_results : SearchDict)
    (answerApi : AnswerApiOutcome) : CompareOutcome :=
  if exa_results.error.isSome && exa_results.results.isEmpty then
    .serverError { error := "Exa API error: " ++ exa_results.error.getD "" }
  else
    let exa_answer := ExaSearchWrapper.get_answer query answerApi
    let traditional_results := TraditionalSearchMock.search query max_results
    let exa_metrics := RAGMetrics.calculate_exa_metrics exa_results
    let traditional_metrics := RAGMetrics.calculate_traditional_metrics traditional_results
    let comparison := RAGMetrics.compare_metrics exa_metrics traditional_metrics
    .ok { query := query
          exa_results := exa_results
          exa_metrics := exa_metrics
          exa_answer := exa_answer
          traditional_results := traditional_results
          traditional_metrics := traditional_metrics
          workflow_steps := TraditionalSearchNote.get_workflow_steps
          problems := TraditionalSearchNote.get_problems
          comparison := comparison }

/-- The `/compare` handler (src/app.py lines 16-72).  The two form fields
arrive as `Option String` (absent field = `none`); `defaultMaxResults` is
the configured `Config.DEFAULT_MAX_RESULTS` (config.py is not in the
snapshot; the spec only says the default comes from configuration).  The
`int()` conversion of `max_results` runs before the empty-query validation,
exactly as in the source, so an unparseable field yields `valueError`
regardless of the query. -/
def app.compare (queryField maxResultsField : Option String) (defaultMaxResults : Int)
    (searchApi : ExaApiOutcome) (answerApi : AnswerApiOutcome) : CompareOutcome :=
  let query := pyStripStr (queryField.getD "")
  match (match maxResultsField with
         | none => some defaultMaxResults
         | some s => pyInt s) with
  | none => .valueError
  | some max_results =>
    if query = "" then .badRequest { error := "Query is required" }
    else
      let exa_results := ExaSearchWrapper.search query max_results searchApi
      compareWithResults query max_results exa_results answerApi


/-- C1: on the input with a parenthetical citation group holding two
markdown links, the answer-cleaning pipeline of `get_answer` produces
exactly the sentence with the group and both links removed, the trailing
period preserved, and no stray space before the period. -/
theorem c1_citation_group_removal :
    cleanAnswer "Paris is the capital ([Source](http://a.com), [Other](http://b.com))." =
      "Paris is the capital." := by
  decide

/-- C2 counterexample: the markdown-stripping stage of the answer cleaner
does not have the same semantics as the Text Normalizer's rules 3-6: it
leaves `__x__` untouched while `clean_markdown_text` strips the
double-underscore bold markers. -/
theorem c2_counterexample :
    cleanAnswer "__x__" = "__x__" ∧ clean_markdown_text "__x__" = "x" ∧
    cleanAnswer "__x__" ≠ clean_markdown_text "__x__" := by
  decide

/-- C2 (amended): the markdown-stripping stage of the answer cleaner strips
star bold `**text**` and star italic `*text*` (but neither underscore form),
bullet prefixes made of a line-start whitespace run, a `*` and at least one
whitespace character (but not `-` bullets), header markers of one to six
hashes anywhere in the text (not only at line start, unlike the
normalizer), and inline code backticks. -/
theorem c2_amended_markdown_stage :
    answerMarkdownStage "**b**" = "b" ∧
    answerMarkdownStage "*i*" = "i" ∧
    answerMarkdownStage "`code`" = "code" ∧
    answerMarkdownStage "* item" = "item" ∧
    answerMarkdownStage "- item" = "- item" ∧
    answerMarkdownStage "a # b" = "a b" ∧
    answerMarkdownStage "__x__" = "__x__" ∧
    answerMarkdownStage "_x_" = "_x_" ∧
    clean_markdown_text "a # b" = "a # b" := by
  decide

/-- C3 counterexample: the Text Normalizer is not idempotent.  Stripping the
bold markers of `[a**]**(b)` assembles the fresh link `[a](b)`, which only a
second pass resolves to `a`. -/
theorem c3_counterexample :
    clean_markdown_text (clean_markdown_text "[a**]**(b)") ≠
      clean_markdown_text "[a**]**(b)" := by
  decide

/-- C3 (amended): a single pass of `clean_markdown_text` can reveal new
markdown (bold-marker removal can assemble a link), so the normalizer is
not idempotent in general; on inputs whose single pass removes every piece
of markdown, such as the specification's link and image examples, a second
pass changes nothing. -/
theorem c3_amended_idempotence :
    clean_markdown_text "[a**]**(b)" = "[a](b)" ∧
    clean_markdown_text "[a](b)" = "a" ∧
    clean_markdown_text (clean_markdown_text "See [docs](http://x.com/y) now") =
      clean_markdown_text "See [docs](http://x.com/y) now" ∧
    clean_markdown_text (clean_markdown_text "![alt text](http://x.com/img.png)") =
      clean_markdown_text "![alt text](http://x.com/img.png)" := by
  decide

/-- C4: the Text Normalizer and the Answer Citation Cleaner are total
string functions of the embedding — the empty string (and the `None`-like
argument the normalizer's falsiness guard accepts) maps to the empty
string, and every string input evaluates to a string result. -/
theorem c4_totality :
    clean_markdown_text "" = "" ∧ cleanMarkdownTextPy none = "" ∧ cleanAnswer "" = "" ∧
    (∀ s : String, ∃ t u : String, clean_markdown_text s = t ∧ cleanAnswer s = u) :=
  ⟨by decide, by decide, by decide, fun s => ⟨_, _, rfl, rfl⟩⟩

/-- C5: in the `/compare` handler, a search dictionary with the error key
set and an empty result list aborts with the server-error body, while an
error with a non-empty result list proceeds to the success payload. -/
theorem c5_provider_error_split (q : String) (n : Int) (d : SearchDict) (msg : String)
    (aapi : AnswerApiOutcome) (h : d.error = some msg) :
    (d.results = [] → compareWithResults q n d aapi =
        .serverError { error := "Exa API error: " ++ msg }) ∧
    (d.results ≠ [] → ∃ p, compareWithResults q n d aapi = .ok p) := by
  constructor
  · intro he
    simp [compareWithResults, h, he]
  · intro hne
    have hE : d.results.isEmpty = false := by
      simpa [List.isEmpty_iff] using hne
    simp [compareWithResults, h, hE]

/-- Witness for C5 at a concrete erroring dictionary: empty results give the
500 body, a surviving result gives a success payload. -/
theorem c5_witness :
    (compareWithResults "q" 5
        { error := some "boom", query := "q", answer := none, results := [],
          raw_response := none } (.error "down") =
      .serverError { error := "Exa API error: boom" }) ∧
    (∃ p, compareWithResults "q" 5
        { error := some "boom", query := "q", answer := none,
          results := [{ title := "t", url := "https://e.com/a", content := "c",
                        score := 0, highlights := [], published_date := "",
                        author := "" }],
          raw_response := none } (.error "down") = .ok p) :=
  ⟨(c5_provider_error_split "q" 5 _ "boom" (.error "down") rfl).1 rfl,
   (c5_provider_error_split "q" 5 _ "boom" (.error "down") rfl).2 (by simp)⟩

/-- C6 counterexample: a line made only of pipes and dashes is not dropped
by the table stage unless it starts and ends with a pipe — `--|--` passes
through unchanged and `|--` is rewritten to its one cell rather than
dropped. -/
theorem c6_counterexample :
    tableStage "--|--" = "--|--" ∧ tableStage "--|--" ≠ "" ∧
    tableStage "|--" = "--" ∧ clean_markdown_text "--|--" = "--|--" := by
  decide

/-- C6 (amended): the table stage drops exactly the lines that, after
optional surrounding whitespace, start and end with a pipe enclosing a
nonempty run of pipes/dashes/colons/whitespace; a line whose stripped form
starts with a pipe is split on pipes, its blank cells are discarded, the
rest are trimmed and joined with " - ", and the line is dropped entirely
when every cell is blank; all other lines — including runs of dashes or
colons without enclosing pipes and whitespace-only lines — pass through
unchanged. -/
theorem c6_amended_table_stage :
    tableStage "| a | b |\n|---|---|\n| c | d |" = "a - b\nc - d" ∧
    tableStage " | --- | : | " = "" ∧
    tableStage "--|--" = "--|--" ∧
    tableStage "|--" = "--" ∧
    tableStage "a\n||\nb" = "a\nb" ∧
    tableStage "   " = "   " ∧
    tableStage "plain | mid" = "plain | mid" := by
  decide

/-- C7 counterexample: a request with an empty query and an unparseable
`max_results` field does not receive the 400 validation body — the `int()`
conversion raises first. -/
theorem c7_counterexample :
    app.compare (some "") (some "abc") 5 (.error "e") (.error "e") = .valueError ∧
    app.compare (some "") (some "abc") 5 (.error "e") (.error "e") ≠
      .badRequest { error := "Query is required" } := by
  decide

/-- C7 (amended): for every request whose query field is empty after
trimming and whose `max_results` field is absent or parses as an integer,
the handler returns the 400 validation body, and the outcome is independent
of both provider calls (the provider is never invoked). -/
theorem c7_amended_empty_query (qf mrf : Option String) (d : Int)
    (api api2 : ExaApiOutcome) (aapi aapi2 : AnswerApiOutcome)
    (hq : pyStripStr (qf.getD "") = "")
    (hmr : (match mrf with
            | none => some d
            | some s => pyInt s) ≠ none) :
    app.compare qf mrf d api aapi = .badRequest { error := "Query is required" } ∧
    app.compare qf mrf d api aapi = app.compare qf mrf d api2 aapi2 := by
  obtain ⟨n, hn⟩ := Option.ne_none_iff_exists'.mp hmr
  constructor <;> simp [app.compare, hn, hq]

/-- Witness for C7 (amended) at a whitespace-only query with the
`max_results` field absent. -/
theorem c7_witness :
    app.compare (some "  ") none 5 (.error "e") (.error "e2") =
      .badRequest { error := "Query is required" } ∧
    app.compare (some "  ") none 5 (.error "e") (.error "e2") =
      app.compare (some "  ") none 5 (.ok []) (.ok { answer := "", citations := [] }) :=
  ⟨(c7_amended_empty_query (some "  ") none 5 (.error "e") (.ok [])
      (.error "e2") (.ok { answer := "", citations := [] }) (by decide) (by decide)).1,
   (c7_amended_empty_query (some "  ") none 5 (.error "e") (.ok [])
      (.error "e2") (.ok { answer := "", citations := [] }) (by decide) (by decide)).2⟩

/-- C8: `ExaSearchWrapper.search` returns either the success shape (no
error key, answer and raw response present) or the failure shape (error set
and an empty result list); it can never pair an error with a non-empty
result list. -/
theorem c8_search_shape (q : String) (n : Int) (api : ExaApiOutcome) :
    (((ExaSearchWrapper.search q n api).error = none ∧
      (ExaSearchWrapper.search q n api).answer.isSome ∧
      (ExaSearchWrapper.search q n api).raw_response.isSome) ∨
     ((ExaSearchWrapper.search q n api).error.isSome ∧
      (ExaSearchWrapper.search q n api).results = [])) ∧
    ¬ ((ExaSearchWrapper.search q n api).error.isSome ∧
       (ExaSearchWrapper.search q n api).results ≠ []) := by
  cases api <;> simp [ExaSearchWrapper.search]

/-- C9 counterexample: for a negative `max_results` the mock search does not
return `min(max_results, 10)` results — the Python slice counts from the
end, so `-1` yields nine results. -/
theorem c9_counterexample :
    ((TraditionalSearchMock.search "x" (-1)).results.length : Int) ≠ min (-1 : Int) 10 := by
  decide

/-- C9 (amended): for every query and every non-negative `max_results` the
mock search returns exactly `min(max_results, 10)` results and reports
`total_results` equal to the number of results returned; a negative
`max_results` instead slices from the end of the ten templates. -/
theorem c9_amended_mock_search (q : String) (n : Int) (h : 0 ≤ n) :
    ((TraditionalSearchMock.search q n).results.length : Int) = min n 10 ∧
    (TraditionalSearchMock.search q n).total_results =
      (TraditionalSearchMock.search q n).results.length := by
  constructor
  · have hr : (TraditionalSearchMock.search q n).results = (mockTemplates q).take n.toNat := by
      simp [TraditionalSearchMock.search, TraditionalSearchMock.generate_mock_results,
        pySliceTo, h]
    have hlen : (mockTemplates q).length = 10 := by
      simp [mockTemplates]
    rw [hr, List.length_take, hlen]
    omega
  · rfl

/-- Witness for C9 (amended): requesting twelve results returns the full
ten templates with a matching `total_results`. -/
theorem c9_witness :
    ((TraditionalSearchMock.search "rag" 12).results.length : Int) = min (12 : Int) 10 ∧
    (TraditionalSearchMock.search "rag" 12).total_results =
      (TraditionalSearchMock.search "rag" 12).results.length :=
  c9_amended_mock_search "rag" 12 (by decide)

/-- C10: the `int()` conversion of the `max_results` field runs before the
empty-query validation, so any present but unparseable value makes the
handler raise an uncaught `ValueError` — for every query, including the
empty one. -/
theorem c10_value_error (qf : Option String) (s : String) (d : Int)
    (api : ExaApiOutcome) (aapi : AnswerApiOutcome) (h : pyInt s = none) :
    app.compare qf (some s) d api aapi = .valueError := by
  simp [app.compare, h]

/-- Witness for C10 at an empty query with the unparseable field `12x`. -/
theorem c10_witness :
    app.compare (some "") (some "12x") 5 (.error "e") (.error "e") = .valueError :=
  c10_value_error (some "") "12x" 5 (.error "e") (.error "e") (by decide)
